import Mathlib

/-!
Verification development for the component-manager subsystem of the
`platform-espressif32` builder scripts
(`src/builder/frameworks/component_manager.py`).

The Python module is shallowly embedded below: pure string/regex
manipulation becomes Lean functions over `String`/`List Char`, file
state becomes explicit record/`Option` values, and the `re` module's
behaviour on the specific patterns used by the source (literals,
`.`, `\s`, negated single-character classes, greedy `*` over such
classes, greedy `?`, leftmost non-overlapping `re.sub`) is implemented
by a small executable backtracking matcher.
-/

/-- Character classes appearing in the source's regex patterns:
`.` (any character except newline), `\s` (whitespace, ASCII forms),
and negated classes such as `[^,]`, `[^)]`, `[^"]`, `[^,\n]`. -/
inductive CClass where
  | dot : CClass
  | ws : CClass
  | notIn : List Char → CClass

/-- Whether a character is matched by a class. `[^...]` classes match
newline unless it is excluded, while `.` does not (Python default). -/
def CClass.matchesChar : CClass → Char → Bool
  | .dot, c => c != '\n'
  | .ws, c =>
    c == ' ' || c == '\t' || c == '\n' || c == '\r' || c == '\x0b' || c == '\x0c'
  | .notIn cs, c => !(cs.contains c)

/-- One token of a pattern: a literal character, a single-character
class, a greedy star over a class, or a greedy optional literal.
All repetition in the source's patterns is over single-character
classes, so this token language covers every pattern exactly. -/
inductive RTok where
  | ch : Char → RTok
  | cls : CClass → RTok
  | star : CClass → RTok
  | opt : Char → RTok

/-- Length of the maximal prefix of `s` whose characters all belong to
class `k` (the first candidate of a greedy star). -/
def maxRun (k : CClass) : List Char → Nat
  | [] => 0
  | c :: cs => if k.matchesChar c then maxRun k cs + 1 else 0

/-- Fuel-driven backtracking matcher. `matchToksF fuel p s` returns the
number of characters of the prefix of `s` matched by pattern `p` under
Python `re` anchored-at-start semantics (greedy `*`/`?` with
backtracking, highest-priority match reported), or `none` when `p` does
not match at the start of `s`. Fuel `p.length + 1` always suffices
because every recursive call drops one pattern token. -/
def matchToksF : Nat → List RTok → List Char → Option Nat
  | 0, _, _ => none
  | _ + 1, [], _ => some 0
  | f + 1, .ch c :: ts, s =>
    match s with
    | [] => none
    | x :: xs => if x == c then (matchToksF f ts xs).map (· + 1) else none
  | f + 1, .cls k :: ts, s =>
    match s with
    | [] => none
    | x :: xs => if k.matchesChar x then (matchToksF f ts xs).map (· + 1) else none
  | f + 1, .star k :: ts, s =>
    ((List.range (maxRun k s + 1)).reverse).findSome?
      (fun j => (matchToksF f ts (s.drop j)).map (· + j))
  | f + 1, .opt c :: ts, s =>
    match s with
    | [] => matchToksF f ts []
    | x :: xs =>
      if x == c then
        match matchToksF f ts xs with
        | some n => some (n + 1)
        | none => matchToksF f ts (x :: xs)
      else matchToksF f ts (x :: xs)

/-- Anchored match of a whole token list: adequate fuel supplied. -/
def matchToks (p : List RTok) (s : List Char) : Option Nat :=
  matchToksF (p.length + 1) p s

/-- Leftmost non-overlapping substitution over a character list, the
behaviour of `re.sub(pattern, repl, s)` for the source's patterns
(each of which matches at least one character, so scanning always
advances; fuel `s.length` therefore suffices). -/
def subReplF (p : List RTok) (repl : List Char) : Nat → List Char → List Char
  | 0, s => s
  | _ + 1, [] => []
  | f + 1, x :: xs =>
    match matchToks p (x :: xs) with
    | some 0 => x :: subReplF p repl f xs
    | some (l + 1) => repl ++ subReplF p repl f ((x :: xs).drop (l + 1))
    | none => x :: subReplF p repl f xs

/-- Models `re.sub(pattern, repl, s)` on strings. -/
def reSub (p : List RTok) (repl : String) (s : String) : String :=
  String.mk (subReplF p repl.toList s.toList.length s.toList)

/-- A string as a sequence of literal pattern tokens (also the meaning
of `re.escape(name)` for the component/library names involved, which
escapes punctuation but still matches it literally). -/
def lits (s : String) : List RTok := s.toList.map RTok.ch

/-- The eight patterns of `BuildFileManager.remove_ignored_lib_includes`
for a given library name `lib` (appearing via `re.escape`, i.e. as a
literal):
1. `.*join\([^,]*,\s*"include",\s*"L"[^)]*\),?\n`
2. `.*"include/L"[^,\n]*,?\n`
3. `.*"[^"]*include[^"]*L[^"]*"[^,\n]*,?\n`
4. `.*"[^"]*/L/include[^"]*"[^,\n]*,?\n`
5. `.*"[^"]*L[^"]*include[^"]*"[^,\n]*,?\n`
6. `.*join\([^)]*"include"[^)]*"L"[^)]*\),?\n`
7. `.*"L/include"[^,\n]*,?\n`
8. `\s*"[^"]*/L/[^"]*",?\n` -/
def ignoredLibPatterns (lib : String) : List (List RTok) :=
  [ [RTok.star .dot] ++ lits "join(" ++ [RTok.star (.notIn [',']), RTok.ch ',',
      RTok.star .ws] ++ lits "\"include\"," ++ [RTok.star .ws, RTok.ch '"'] ++
      lits lib ++ [RTok.ch '"', RTok.star (.notIn [')']), RTok.ch ')',
      RTok.opt ',', RTok.ch '\n']
  , [RTok.star .dot] ++ lits "\"include/" ++ lits lib ++
      [RTok.ch '"', RTok.star (.notIn [',', '\n']), RTok.opt ',', RTok.ch '\n']
  , [RTok.star .dot, RTok.ch '"', RTok.star (.notIn ['"'])] ++ lits "include" ++
      [RTok.star (.notIn ['"'])] ++ lits lib ++
      [RTok.star (.notIn ['"']), RTok.ch '"', RTok.star (.notIn [',', '\n']),
      RTok.opt ',', RTok.ch '\n']
  , [RTok.star .dot, RTok.ch '"', RTok.star (.notIn ['"']), RTok.ch '/'] ++
      lits lib ++ lits "/include" ++
      [RTok.star (.notIn ['"']), RTok.ch '"', RTok.star (.notIn [',', '\n']),
      RTok.opt ',', RTok.ch '\n']
  , [RTok.star .dot, RTok.ch '"', RTok.star (.notIn ['"'])] ++ lits lib ++
      [RTok.star (.notIn ['"'])] ++ lits "include" ++
      [RTok.star (.notIn ['"']), RTok.ch '"', RTok.star (.notIn [',', '\n']),
      RTok.opt ',', RTok.ch '\n']
  , [RTok.star .dot] ++ lits "join(" ++ [RTok.star (.notIn [')'])] ++
      lits "\"include\"" ++ [RTok.star (.notIn [')']), RTok.ch '"'] ++ lits lib ++
      [RTok.ch '"', RTok.star (.notIn [')']), RTok.ch ')', RTok.opt ',',
      RTok.ch '\n']
  , [RTok.star .dot, RTok.ch '"'] ++ lits lib ++ lits "/include\"" ++
      [RTok.star (.notIn [',', '\n']), RTok.opt ',', RTok.ch '\n']
  , [RTok.star .ws, RTok.ch '"', RTok.star (.notIn ['"']), RTok.ch '/'] ++
      lits lib ++ [RTok.ch '/', RTok.star (.notIn ['"']), RTok.ch '"',
      RTok.opt ',', RTok.ch '\n'] ]

/-- The three patterns of `BuildFileManager.remove_cpppath_entries` are
textually the first three patterns of `remove_ignored_lib_includes`. -/
def cpppathPatterns (component : String) : List (List RTok) :=
  (ignoredLibPatterns component).take 3

/-- Pattern `\n\s*\n` of the blank-line cleanup (replacement `\n`). -/
def blankLinePattern : List RTok :=
  [RTok.ch '\n', RTok.star .ws, RTok.ch '\n']

/-- Pattern `,\s*\n\s*\]` of the trailing-comma cleanup
(replacement `\n]`). -/
def trailingCommaPattern : List RTok :=
  [RTok.ch ',', RTok.star .ws, RTok.ch '\n', RTok.star .ws, RTok.ch ']']

/-- Helper for `pyLineCount`: the flag records whether we are currently
inside an unterminated line. -/
def countLinesAux : Bool → List Char → Nat
  | inLine, [] => if inLine then 1 else 0
  | _, c :: cs => if c == '\n' then 1 + countLinesAux false cs else countLinesAux true cs

/-- Models `len(s.splitlines())` of Python for `\n`-separated text: a trailing
newline does not open an extra empty line. -/
def pyLineCount (s : String) : Nat := countLinesAux false s.toList

/-- Models `BuildFileManager._validate_changes`. The source compares the
integer `removed_lines` against the float `original_lines * 0.5`;
over the integers this is exactly `2 * removed > original`. -/
def validate_changes (originalContent newContent : String) : Bool :=
  let o : Int := pyLineCount originalContent
  let n : Int := pyLineCount newContent
  let removed : Int := o - n
  !(2 * removed > o || removed < 0)

/-- Per-library pass of `remove_ignored_lib_includes`: skipped when the
usage oracle (`ProjectAnalyzer.is_component_used_in_project`) reports
the library as used, otherwise each of the eight patterns is applied as
an `re.sub` with empty replacement (the source's `findall` guard only
conditions logging: a pattern without matches leaves the text fixed). -/
def stripLibOnce (oracle : String → Bool) (content : String) (lib : String) : String :=
  if oracle lib then content
  else (ignoredLibPatterns lib).foldl (fun acc p => reSub p "" acc) content

/-- The content transformation performed by `remove_ignored_lib_includes`
before its validation gate: per-library removals, then the blank-line
collapse, then the trailing-comma cleanup. -/
def ignoredPatchPipeline (ignored : List String) (oracle : String → Bool)
    (content : String) : String :=
  reSub trailingCommaPattern "\n]"
    (reSub blankLinePattern "\n" (ignored.foldl (stripLibOnce oracle) content))

/-- Models `BuildFileManager.remove_ignored_lib_includes` acting on the recipe
file's content: returns the resulting content together with whether a
write occurred (the source writes only when `_validate_changes` passes
and the content actually changed). -/
def remove_ignored_lib_includes (ignored : List String) (oracle : String → Bool)
    (content : String) : String × Bool :=
  let c2 := ignoredPatchPipeline ignored oracle content
  if validate_changes content c2 && c2 != content then (c2, true) else (content, false)

/-- Models `BuildFileManager.remove_cpppath_entries` acting on the recipe
file's content: applies the three patterns per removed component and
writes whenever the content changed — with no validation gate. -/
def remove_cpppath_entries (removedComponents : List String)
    (content : String) : String × Bool :=
  let c2 := removedComponents.foldl
    (fun acc comp => (cpppathPatterns comp).foldl (fun a p => reSub p "" a) acc)
    content
  if c2 != content then (c2, true) else (content, false)

set_option maxRecDepth 8000

/-- Substring test (`needle in hay` of Python). -/
def containsSub (needle hay : String) : Bool :=
  hay.toList.tails.any (fun t => needle.toList.isPrefixOf t)

/-- ASCII lower-casing of one character (kernel-evaluable version of
`Char.toLower`; the names handled by the source are ASCII). -/
def asciiLowerChar (c : Char) : Char :=
  if 'A' ≤ c && c ≤ 'Z' then Char.ofNat (c.toNat + 32) else c

/-- Python `str.lower()` for the ASCII names involved. -/
def pyLower (s : String) : String := String.mk (s.toList.map asciiLowerChar)

/-- ASCII upper-casing of one character. -/
def asciiUpperChar (c : Char) : Char :=
  if 'a' ≤ c && c ≤ 'z' then Char.ofNat (c.toNat - 32) else c

/-- Python `str.upper()` for the ASCII names involved. -/
def pyUpper (s : String) : String := String.mk (s.toList.map asciiUpperChar)

/-- Python whitespace (the characters stripped by `str.strip()` on the
ASCII range). -/
def isPyWs (c : Char) : Bool :=
  c == ' ' || c == '\t' || c == '\n' || c == '\r' || c == '\x0b' || c == '\x0c'

/-- Python `str.strip()`. -/
def pyStrip (s : String) : String :=
  String.mk (((s.toList.dropWhile isPyWs).reverse.dropWhile isPyWs).reverse)

/-- Models `s.startswith(p)`. -/
def strStartsWith (s p : String) : Bool := p.toList.isPrefixOf s.toList

/-- Models `s.endswith(p)`. -/
def strEndsWith (s p : String) : Bool := p.toList.isSuffixOf s.toList

/-- Models `s[n:]` for `0 ≤ n`. -/
def strDrop (s : String) (n : Nat) : String := String.mk (s.toList.drop n)

/-- Models `s[:-n]` (drop the last `n` characters). -/
def strDropRight (s : String) (n : Nat) : String :=
  String.mk (s.toList.take (s.toList.length - n))

/-- Python `s.replace(" ", "")` (single-character pattern). -/
def removeSpaces (s : String) : String :=
  String.mk (s.toList.filter (fun c => c != ' '))

/-- Python `s.replace("-", "_")` (single-character pattern). -/
def dashesToUnderscores (s : String) : String :=
  String.mk (s.toList.map (fun c => if c == '-' then '_' else c))

/-- The `extended_mapping` table of
`LibraryMapper._map_library_to_include_path`. -/
def extendedMapping : List (String × String) :=
  [ ("wifi", "esp_wifi")
  , ("bluetooth", "bt")
  , ("bluetoothserial", "bt")
  , ("ble", "bt")
  , ("bt", "bt")
  , ("ethernet", "esp_eth")
  , ("websocket", "esp_websocket_client")
  , ("http", "esp_http_client")
  , ("https", "esp_https_ota")
  , ("ota", "esp_https_ota")
  , ("spiffs", "spiffs")
  , ("fatfs", "fatfs")
  , ("mesh", "esp_wifi_mesh")
  , ("smartconfig", "esp_smartconfig")
  , ("mdns", "mdns")
  , ("coap", "coap")
  , ("mqtt", "mqtt")
  , ("json", "cjson")
  , ("mbedtls", "mbedtls")
  , ("openssl", "openssl")
  , ("esp32blearduino", "bt")
  , ("esp32_ble_arduino", "bt")
  , ("esp32", "esp32")
  , ("wire", "driver")
  , ("spi", "driver")
  , ("i2c", "driver")
  , ("uart", "driver")
  , ("serial", "driver")
  , ("analogwrite", "driver")
  , ("ledc", "driver")
  , ("pwm", "driver")
  , ("dac", "driver")
  , ("adc", "driver")
  , ("touch", "driver")
  , ("hall", "driver")
  , ("rtc", "driver")
  , ("timer", "esp_timer")
  , ("preferences", "arduino_preferences")
  , ("eeprom", "arduino_eeprom")
  , ("update", "esp_https_ota")
  , ("httpupdate", "esp_https_ota")
  , ("httpclient", "esp_http_client")
  , ("httpsclient", "esp_https_ota")
  , ("wifimanager", "esp_wifi")
  , ("wificlientsecure", "esp_wifi")
  , ("wifiserver", "esp_wifi")
  , ("wifiudp", "esp_wifi")
  , ("wificlient", "esp_wifi")
  , ("wifiap", "esp_wifi")
  , ("wifimulti", "esp_wifi")
  , ("esp32webserver", "esp_http_server")
  , ("webserver", "esp_http_server")
  , ("asyncwebserver", "esp_http_server")
  , ("dnsserver", "lwip")
  , ("netbios", "netbios")
  , ("simpletime", "lwip")
  , ("fs", "vfs")
  , ("sd", "fatfs")
  , ("sd_mmc", "fatfs")
  , ("littlefs", "esp_littlefs")
  , ("ffat", "fatfs")
  , ("camera", "esp32_camera")
  , ("esp_camera", "esp32_camera")
  , ("arducam", "esp32_camera")
  , ("rainmaker", "esp_rainmaker")
  , ("esp_rainmaker", "esp_rainmaker")
  , ("provisioning", "wifi_provisioning")
  , ("wifiprovisioning", "wifi_provisioning")
  , ("espnow", "esp_now")
  , ("esp_now", "esp_now")
  , ("esptouch", "esp_smartconfig")
  , ("ping", "lwip")
  , ("netif", "lwip")
  , ("tcpip", "lwip") ]

/-- Models `LibraryMapper._map_library_to_include_path`: normalizes the
declared library name (lower case, spaces removed, `-` to `_`), looks
it up in the extended mapping, then the lowercased directory name, and
finally falls back to the lowercased directory name itself. -/
def map_library_to_include_path (libName dirName : String) : String :=
  let libNameLower := dashesToUnderscores (removeSpaces (pyLower libName))
  let dirNameLower := pyLower dirName
  match extendedMapping.lookup libNameLower with
  | some v => v
  | none =>
    match extendedMapping.lookup dirNameLower with
    | some v => v
    | none => dirNameLower

/-- Sequential stripping of the known prefixes
`lib`, `arduino-`, `esp32-`, `esp-` (each at most once, in order). -/
def stripKnownPrefixes (s : String) : String :=
  ["lib", "arduino-", "esp32-", "esp-"].foldl
    (fun acc p => if strStartsWith acc p then strDrop acc p.toList.length else acc) s

/-- Sequential stripping of the known suffixes `-lib`, `-library`, `.h`
(each at most once, in order). -/
def stripKnownSuffixes (s : String) : String :=
  ["-lib", "-library", ".h"].foldl
    (fun acc suf => if strEndsWith acc suf then strDropRight acc suf.toList.length else acc) s

/-- The `direct_mapping` table of
`LibraryMapper.convert_lib_name_to_include`. -/
def directMapping : List (String × String) :=
  [("ble", "bt"), ("bluetooth", "bt"), ("bluetoothserial", "bt")]

/-- Models `LibraryMapper.convert_lib_name_to_include`. The lazily built
Arduino-core-library table (`_get_arduino_core_libraries`, keyed by
lowercased declared name and lowercased directory name) is passed in
explicitly as `cache`; an empty list models an absent/empty vendored
`libraries` directory. -/
def convert_lib_name_to_include (cache : List (String × String))
    (libName : String) : String :=
  let libNameLower := pyLower libName
  match cache.lookup libNameLower with
  | some v => v
  | none =>
    let cleaned := stripKnownSuffixes (stripKnownPrefixes libNameLower)
    match cache.lookup cleaned with
    | some v => v
    | none =>
      match directMapping.lookup cleaned with
      | some v => v
      | none => cleaned

/-- The `critical_components` list of
`ComponentManager._get_lib_ignore_entries`. -/
def critical_components : List String :=
  ["lwip", "freertos", "esp_system", "esp_common", "driver",
   "nvs_flash", "spi_flash", "esp_timer", "esp_event", "log"]

/-- Models `ComponentManager._get_lib_ignore_entries`: trims each configured
`lib_ignore` entry, drops empty ones, converts the survivors through
`convert_lib_name_to_include`, and filters out the critical
components. -/
def get_lib_ignore_entries (cache : List (String × String))
    (libIgnore : List String) : List String :=
  let cleanedEntries :=
    ((libIgnore.map pyStrip).filter (fun e => e != "")).map
      (convert_lib_name_to_include cache)
  cleanedEntries.filter (fun e => !(critical_components.contains e))

/-- Splits a character list at the first occurrence of `c`
(`entry.split(c, 1)` when `c` occurs): returns the part before and the
part after that occurrence. -/
def breakAtChar (c : Char) : List Char → List Char × List Char
  | [] => ([], [])
  | x :: xs =>
    if x == c then ([], xs)
    else
      let p := breakAtChar c xs
      (x :: p.1, p.2)

/-- Models `ComponentManager._parse_component_entry`: `name@version` splits at
the first `@` into trimmed name and trimmed version; without `@` the
trimmed entry gets default version `*`. -/
def parse_component_entry (entry : String) : String × String :=
  if entry.toList.contains '@' then
    let p := breakAtChar '@' entry.toList
    (pyStrip (String.mk p.1), pyStrip (String.mk p.2))
  else (pyStrip entry, "*")

/-- One dependencies mapping entry: component name and the version
string stored under its `version` key. -/
abbrev Dependencies := List (String × String)

/-- One loop iteration of `ComponentManager._add_components`: strips
the entry, skips it when its length is at most 4, parses
`name@version`, and inserts only when the name is not already
present. -/
def add_components_step (ds : Dependencies) (e : String) : Dependencies :=
  let e := pyStrip e
  if e.toList.length ≤ 4 then ds
  else
    let nv := parse_component_entry e
    if (ds.lookup nv.1).isSome then ds else ds ++ [(nv.1, nv.2)]

/-- Models `ComponentManager._add_components` acting on the `dependencies`
mapping. -/
def add_components (deps : Dependencies) (entries : List String) : Dependencies :=
  entries.foldl add_components_step deps

/-- The `component_patterns` table of
`ProjectAnalyzer._extract_components_from_file`. -/
def component_patterns : List (String × List String) :=
  [ ("bt", ["bluetooth", "ble", "nimble", "bt_", "esp_bt", "esp_ble"])
  , ("esp_wifi", ["wifi", "esp_wifi", "tcpip_adapter"])
  , ("esp_dsp", ["dsps_", "esp_dsp", "fft2r", "dsps_fft2r"])
  , ("esp_http_client", ["esp_http_client", "http_client"])
  , ("esp_https_ota", ["esp_https_ota", "esp_ota"])
  , ("mdns", ["mdns", "esp_mdns"])
  , ("mqtt", ["mqtt", "esp_mqtt"])
  , ("spiffs", ["spiffs", "esp_spiffs"])
  , ("fatfs", ["fatfs", "ff.h"])
  , ("nvs_flash", ["nvs", "nvs_flash"])
  , ("esp_timer", ["esp_timer", "timer_"])
  , ("driver", ["gpio_", "uart_", "spi_", "i2c_", "adc_", "dac_"])
  , ("esp_camera", ["esp_camera", "camera.h"])
  , ("esp_now", ["esp_now", "espnow"])
  , ("esp_smartconfig", ["smartconfig", "esp_smartconfig"])
  , ("esp_eth", ["esp_eth", "ethernet"])
  , ("esp_websocket_client", ["websocket", "esp_websocket"])
  , ("cjson", ["cjson", "json"])
  , ("mbedtls", ["mbedtls", "ssl"])
  , ("openssl", ["openssl"]) ]

/-- The `lib_dep_mapping` table of
`ProjectAnalyzer._extract_components_from_lib_dep`. -/
def lib_dep_mapping : List (String × List String) :=
  [ ("bt", ["BLE", "BT", "BLUETOOTH", "NIMBLE"])
  , ("esp_wifi", ["WIFI", "ASYNCTCP", "ESPASYNCWEBSERVER"])
  , ("esp_dsp", ["DSP", "FFT", "JPEG"])
  , ("esp_http_client", ["HTTP", "HTTPCLIENT"])
  , ("mqtt", ["MQTT", "PUBSUB"])
  , ("esp_camera", ["CAMERA", "ESP32CAM"])
  , ("esp_now", ["ESPNOW", "ESP_NOW"])
  , ("mdns", ["MDNS"])
  , ("esp_eth", ["ETHERNET"]) ]

/-- Models `ProjectAnalyzer._extract_components_from_file` on a file's raw
content: the content is lower-cased and a component is reported when
any of its patterns occurs as a substring. -/
def extract_components_from_file (content : String) : List String :=
  component_patterns.filterMap
    (fun cp => if cp.2.any (fun p => containsSub p (pyLower content)) then some cp.1 else none)

/-- Models `ProjectAnalyzer._extract_components_from_lib_dep`: the dependency
string is upper-cased and matched against the keyword table. -/
def extract_components_from_lib_dep (libDep : String) : List String :=
  lib_dep_mapping.filterMap
    (fun ck => if ck.2.any (fun k => containsSub k (pyUpper libDep)) then some ck.1 else none)

/-- The source-file extensions recognized by
`ProjectAnalyzer.analyze_project_dependencies`. -/
def recognizedExt (fileName : String) : Bool :=
  [".cpp", ".c", ".h", ".hpp", ".ino"].any (fun e => strEndsWith fileName e)

/-- Models `ProjectAnalyzer.analyze_project_dependencies`: the project is
modelled as the list of its source files (name and content) plus the
declared `lib_deps`; the used-component set is the union (here: list
whose membership is the set membership) of the per-file and per-dep
extractions over files with a recognized extension. -/
def analyze_project_dependencies (files : List (String × String))
    (libDeps : List String) : List String :=
  (files.foldl
    (fun acc f => if recognizedExt f.1 then acc ++ extract_components_from_file f.2 else acc)
    [])
  ++ libDeps.foldl (fun acc d => acc ++ extract_components_from_lib_dep d) []

/-- Models `ProjectAnalyzer.is_component_used_in_project`: direct membership
of the lower-cased name in the analyzed set, or a partial
(substring-in-either-direction) match against any member. -/
def is_component_used_in_project (files : List (String × String))
    (libDeps : List String) (libName : String) : Bool :=
  let cache := analyze_project_dependencies files libDeps
  let l := pyLower libName
  cache.contains l || cache.any (fun u => containsSub l u || containsSub u l)

/-- The file-system state touched by `BuildFileManager`: the content of
`pioarduino-build.py` and of its MCU-suffixed backup
(`pioarduino-build.py.<mcu>`), each `none` when the file is absent. -/
structure BuildFs where
  buildPy : Option String
  backupFile : Option String
deriving DecidableEq

/-- Models `BuildFileManager.backup_pioarduino_build_py`: a no-op unless
`"arduino"` occurs in `$PIOFRAMEWORK`; copies the recipe file to the
backup path only when the recipe exists and no backup exists yet
(`copy2` preserves content byte-identically). -/
def backup_pioarduino_build_py (pioframework : String) (fs : BuildFs) : BuildFs :=
  if !(containsSub "arduino" pioframework) then fs
  else
    match fs.buildPy, fs.backupFile with
    | some c, none => { fs with backupFile := some c }
    | _, _ => fs

/-- Models `BuildFileManager.restore_pioarduino_build_py`: when a backup
exists, copies it over the recipe file and deletes the backup. -/
def restore_pioarduino_build_py (fs : BuildFs) : BuildFs :=
  match fs.backupFile with
  | some b => { buildPy := some b, backupFile := none }
  | none => fs

/-- An abstract YAML document, the possible results of `yaml.load` with
the safe loader on the manifest file. -/
inductive YamlValue where
  | nullV : YamlValue
  | boolV : Bool → YamlValue
  | strV : String → YamlValue
  | intV : Int → YamlValue
  | listV : List YamlValue → YamlValue
  | dictV : List (String × YamlValue) → YamlValue

/-- Python truthiness of a YAML document (`None`, `False`, `""`, `0`,
`[]` and `{}` are falsy). -/
def yamlTruthy : YamlValue → Bool
  | .nullV => false
  | .boolV b => b
  | .strV s => s != ""
  | .intV n => n != 0
  | .listV xs => !xs.isEmpty
  | .dictV es => !es.isEmpty

/-- Whether a YAML mapping has a given top-level key (`false` for
non-mappings). -/
def yamlHasKey (k : String) : YamlValue → Bool
  | .dictV es => es.any (fun e => e.1 == k)
  | _ => false

/-- The default value `{"dependencies": {}}` substituted by
`load_component_yml`. -/
def defaultComponentData : YamlValue := .dictV [("dependencies", .dictV [])]

/-- Models `ComponentYamlHandler.load_component_yml`: the external parse
(`yaml.load` inside the `try`) is passed in as an `Except` value —
`error` for a missing/unreadable/unparsable file, `ok v` for a
successful parse producing document `v`. The source returns
`parsed or {"dependencies": {}}` and the default on any exception. -/
def load_component_yml (parsed : Except String YamlValue) : YamlValue :=
  match parsed with
  | .error _ => defaultComponentData
  | .ok v => if yamlTruthy v then v else defaultComponentData

/-- Failure modes of the source's write phase
(`with open(build_py_path, 'w') as f: f.write(content)`): the write
may complete; `open` itself may raise, before the file is truncated;
or an exception may be raised after `open` truncated the file and a
prefix of the new content was written (`midFail k` raises after `k`
characters, `k = 0` being a bare truncation). -/
inductive WriteFault where
  | complete : WriteFault
  | openFail : WriteFault
  | midFail : Nat → WriteFault

/-- Fault injection for the file operations inside the `try` block of
`remove_ignored_lib_includes`: whether the read raises, and how the
write phase behaves when it is reached. -/
structure IoFaults where
  readErr : Bool
  writeFault : WriteFault

/-- The body of the `try` block of `remove_ignored_lib_includes` over
the current file content: read, patch, validate, conditionally write.
Returns the on-disk content when control leaves the block, together
with whether an exception was raised (to be caught by the handler).
A read failure happens before any write, so the content is unchanged;
an `open` failure also leaves the content unchanged; an exception
raised mid-write leaves the truncated file holding a prefix of the
intended new content. -/
def remove_ignored_try (faults : IoFaults) (ignored : List String)
    (oracle : String → Bool) (content : String) : String × Bool :=
  if faults.readErr then (content, true)
  else
    let c2 := ignoredPatchPipeline ignored oracle content
    if validate_changes content c2 && c2 != content then
      match faults.writeFault with
      | .complete => (c2, false)
      | .openFail => (content, true)
      | .midFail k => (String.mk (c2.toList.take k), true)
    else (content, false)

/-- Models `remove_ignored_lib_includes` with its exception handler,
acting on the file state (`none` = file absent, early return). A raised
exception is caught and converted to a change-log message — the `Bool`
component records that an error message was logged. The Lean function
is total: no path re-raises. -/
def remove_ignored_lib_includes_run (faults : IoFaults) (ignored : List String)
    (oracle : String → Bool) (fs : Option String) : Option String × Bool :=
  match fs with
  | none => (none, false)
  | some c =>
    let r := remove_ignored_try faults ignored oracle c
    (some r.1, r.2)

/-! ## Shared helper lemmas -/

/-- Characterizes `_validate_changes` returning `true` means: at most half of the
original lines were removed, and the line count did not grow. -/
theorem validate_changes_true_iff (a b : String) :
    validate_changes a b = true ↔
      2 * ((pyLineCount a : Int) - pyLineCount b) ≤ pyLineCount a ∧
        (pyLineCount b : Int) ≤ pyLineCount a := by
  unfold validate_changes
  simp only [Bool.not_eq_true', Bool.or_eq_false_iff, decide_eq_false_iff_not]
  omega

/-- A successful association-list lookup survives appending entries on
the right. -/
theorem lookup_append_left {α β : Type} [BEq α] {l : List (α × β)} {n : α} {v : β}
    (l2 : List (α × β)) (h : l.lookup n = some v) : (l ++ l2).lookup n = some v := by
  induction l with
  | nil => simp [List.lookup] at h
  | cons x xs ih =>
    rw [List.cons_append]
    rw [List.lookup] at h ⊢
    cases hx : (n == x.1) with
    | true => simpa [hx] using h
    | false =>
      rw [hx] at h
      simpa [hx] using ih h

/-- Membership in the guarded accumulating fold used by
`analyze_project_dependencies` over the project's files. -/
theorem mem_files_fold (files : List (String × String)) :
    ∀ (init : List String) (x : String),
      x ∈ files.foldl
          (fun acc f => if recognizedExt f.1 then acc ++ extract_components_from_file f.2 else acc)
          init ↔
        x ∈ init ∨ ∃ f, f ∈ files ∧ recognizedExt f.1 = true ∧
          x ∈ extract_components_from_file f.2 := by
  induction files with
  | nil => simp
  | cons y ys ih =>
    intro init x
    rw [List.foldl_cons]
    cases hy : recognizedExt y.1 with
    | true =>
      simp only [hy, if_true]
      rw [ih]
      simp only [List.mem_append, List.mem_cons]
      constructor
      · rintro ((h | h) | ⟨f, hf, hPf, hx⟩)
        · exact Or.inl h
        · exact Or.inr ⟨y, Or.inl rfl, hy, h⟩
        · exact Or.inr ⟨f, Or.inr hf, hPf, hx⟩
      · rintro (h | ⟨f, (rfl | hf), hPf, hx⟩)
        · exact Or.inl (Or.inl h)
        · exact Or.inl (Or.inr hx)
        · exact Or.inr ⟨f, hf, hPf, hx⟩
    | false =>
      simp only [hy, Bool.false_eq_true, if_false]
      rw [ih]
      simp only [List.mem_cons]
      constructor
      · rintro (h | ⟨f, hf, hPf, hx⟩)
        · exact Or.inl h
        · exact Or.inr ⟨f, Or.inr hf, hPf, hx⟩
      · rintro (h | ⟨f, (rfl | hf), hPf, hx⟩)
        · exact Or.inl h
        · rw [hy] at hPf; exact absurd hPf (by decide)
        · exact Or.inr ⟨f, hf, hPf, hx⟩

/-- Membership in the unguarded accumulating fold used by
`analyze_project_dependencies` over the declared `lib_deps`. -/
theorem mem_deps_fold (libDeps : List String) :
    ∀ (init : List String) (x : String),
      x ∈ libDeps.foldl (fun acc d => acc ++ extract_components_from_lib_dep d) init ↔
        x ∈ init ∨ ∃ d, d ∈ libDeps ∧ x ∈ extract_components_from_lib_dep d := by
  induction libDeps with
  | nil => simp
  | cons y ys ih =>
    intro init x
    rw [List.foldl_cons, ih]
    simp only [List.mem_append, List.mem_cons]
    constructor
    · rintro ((h | h) | ⟨f, hf, hx⟩)
      · exact Or.inl h
      · exact Or.inr ⟨y, Or.inl rfl, h⟩
      · exact Or.inr ⟨f, Or.inr hf, hx⟩
    · rintro (h | ⟨f, (rfl | hf), hx⟩)
      · exact Or.inl (Or.inl h)
      · exact Or.inl (Or.inr hx)
      · exact Or.inr ⟨f, hf, hx⟩

/-- Shows that `_add_components` never changes the version recorded for a name
that is already present in the dependencies mapping. -/
theorem add_components_preserves_lookup :
    ∀ (entries : List String) (deps : Dependencies) (n v : String),
      deps.lookup n = some v → (add_components deps entries).lookup n = some v := by
  intro entries
  induction entries with
  | nil => intro deps n v h; exact h
  | cons e es ih =>
    intro deps n v h
    have hstep : add_components deps (e :: es) = add_components (add_components_step deps e) es := by
      rw [add_components, add_components, List.foldl_cons]
    rw [hstep]
    apply ih
    rw [add_components_step]
    dsimp only
    split
    · exact h
    · split
      · exact h
      · exact lookup_append_left _ h

/-! ## Claim theorems -/

/-- C1 (amended): the ignored-library strip
(`remove_ignored_lib_includes`) never writes a result that removes more
than 50% of the original lines or that grows the file — when the regex
edits fail `_validate_changes` (or change nothing), the original
content is retained and no write occurs; when a write occurs, at most
half of the original line count was removed and the line count did not
grow. The removed-component strip (`remove_cpppath_entries`) performs
no such validation (see its counterexample). -/
theorem ignored_strip_validation_gate (ignored : List String)
    (oracle : String → Bool) (content : String) :
    ((remove_ignored_lib_includes ignored oracle content).2 = false ∧
      (remove_ignored_lib_includes ignored oracle content).1 = content) ∨
    ((remove_ignored_lib_includes ignored oracle content).2 = true ∧
      2 * ((pyLineCount content : Int) -
          pyLineCount (remove_ignored_lib_includes ignored oracle content).1)
        ≤ pyLineCount content ∧
      (pyLineCount (remove_ignored_lib_includes ignored oracle content).1 : Int)
        ≤ pyLineCount content) := by
  rw [remove_ignored_lib_includes]
  split
  · rename_i h
    right
    rw [Bool.and_eq_true] at h
    have hb := (validate_changes_true_iff content
      (ignoredPatchPipeline ignored oracle content)).1 h.1
    exact ⟨rfl, hb.1, hb.2⟩
  · left
    exact ⟨rfl, rfl⟩

/-- C1 counterexample: `remove_cpppath_entries` (the removed-component
strip) has no validation gate — on a two-line file whose lines both
register `include/esp_camera`, removing component `esp_camera` writes
a file with every line removed (100% > 50%), a change that
`_validate_changes` would have rejected. -/
theorem cpppath_strip_no_validation_cex :
    (remove_cpppath_entries ["esp_camera"]
        "\"include/esp_camera\"\n\"include/esp_camera\"\n").2 = true ∧
    (remove_cpppath_entries ["esp_camera"]
        "\"include/esp_camera\"\n\"include/esp_camera\"\n").1 = "" ∧
    pyLineCount "\"include/esp_camera\"\n\"include/esp_camera\"\n" = 2 ∧
    validate_changes "\"include/esp_camera\"\n\"include/esp_camera\"\n" "" = false := by
  decide

/-- C2 counterexample: with an empty Arduino-library table,
`convert_lib_name_to_include "WiFi"` falls through every lookup and
returns the cleaned name `"wifi"`, not `"esp_wifi"` — the
`wifi → esp_wifi` mapping lives in `_map_library_to_include_path` and
is only reachable through a populated vendored-library table. -/
theorem convert_wifi_empty_table_cex :
    convert_lib_name_to_include [] "WiFi" = "wifi" ∧ "wifi" ≠ "esp_wifi" := by
  decide

/-- C2 (amended): `convert_lib_name_to_include` maps
`"BluetoothSerial"` to `"bt"` and leaves unknown names such as
`"some_unknown_xyz"` unchanged (identity fallback); with an empty
Arduino-library table `"WiFi"` maps to `"wifi"`, while `"esp_wifi"`
is produced once the table contains the vendored `WiFi` library entry
built by `_map_library_to_include_path`; the function is total. -/
theorem convert_lib_name_spec :
    convert_lib_name_to_include [] "BluetoothSerial" = "bt" ∧
    convert_lib_name_to_include [] "some_unknown_xyz" = "some_unknown_xyz" ∧
    convert_lib_name_to_include [] "WiFi" = "wifi" ∧
    convert_lib_name_to_include
        [("wifi", map_library_to_include_path "WiFi" "WiFi")] "WiFi" = "esp_wifi" ∧
    ∀ (cache : List (String × String)) (libName : String),
      ∃ r : String, convert_lib_name_to_include cache libName = r := by
  refine ⟨by decide, by decide, by decide, by decide, ?_⟩
  intro cache libName
  exact ⟨_, rfl⟩

/-- C3 counterexample: the ignored-library strip is not idempotent.
On `"A\n,\n]"` (with an empty ignored set) the trailing-comma cleanup
rewrites `,\n]` to `\n]`, creating a fresh blank line; the second
application collapses that blank line, so applying the strip twice
yields `"A\n]"` while applying it once yields `"A\n\n]"`. -/
theorem strip_not_idempotent_cex :
    (remove_ignored_lib_includes [] (fun _ => false)
        (remove_ignored_lib_includes [] (fun _ => false) "A\n,\n]").1).1 ≠
      (remove_ignored_lib_includes [] (fun _ => false) "A\n,\n]").1 := by
  decide

/-- C3 (amended): a second application of the ignored-library strip is
a no-op whenever the regex pipeline fixes the once-stripped content:
then twice equals once and no second write occurs. (This sufficient
condition is not necessary — the validation gate can also block a
second write — and idempotence fails in general: see the
counterexample.) -/
theorem strip_idempotent_when_stable (ignored : List String)
    (oracle : String → Bool) (content : String)
    (h : ignoredPatchPipeline ignored oracle
          ((remove_ignored_lib_includes ignored oracle content).1)
        = (remove_ignored_lib_includes ignored oracle content).1) :
    remove_ignored_lib_includes ignored oracle
        ((remove_ignored_lib_includes ignored oracle content).1)
      = ((remove_ignored_lib_includes ignored oracle content).1, false) := by
  generalize hc : (remove_ignored_lib_includes ignored oracle content).1 = c1 at h ⊢
  rw [remove_ignored_lib_includes]
  rw [h]
  simp

/-- Witness for the amended C3 theorem at a concrete stable content. -/
theorem strip_idempotent_when_stable_witness :
    remove_ignored_lib_includes [] (fun _ => false)
        ((remove_ignored_lib_includes [] (fun _ => false) "hello\n").1)
      = ((remove_ignored_lib_includes [] (fun _ => false) "hello\n").1, false) :=
  strip_idempotent_when_stable [] (fun _ => false) "hello\n" (by decide)

/-- C4: in an Arduino-framework environment, for an existing recipe
file with no pre-existing backup, backup followed by restore (with any
intermediate mutation `g` of the recipe file, such as the strip
operations of the session) leaves the recipe file byte-identical to
its pre-backup content, and the backup file no longer exists. -/
theorem backup_restore_roundtrip (fw : String) (fs : BuildFs) (c : String)
    (g : Option String) (hfw : containsSub "arduino" fw = true)
    (hpy : fs.buildPy = some c) (hbk : fs.backupFile = none) :
    (restore_pioarduino_build_py
        { backup_pioarduino_build_py fw fs with buildPy := g }).buildPy = some c ∧
    (restore_pioarduino_build_py
        { backup_pioarduino_build_py fw fs with buildPy := g }).backupFile = none := by
  cases fs with
  | mk py bk =>
    dsimp only at hpy hbk
    subst hpy
    subst hbk
    rw [backup_pioarduino_build_py, hfw]
    simp [restore_pioarduino_build_py]

/-- Witness for the C4 round-trip theorem at a concrete state. -/
theorem backup_restore_roundtrip_witness :
    (restore_pioarduino_build_py
        { backup_pioarduino_build_py "arduino" ⟨some "original", none⟩ with
            buildPy := some "patched" }).buildPy = some "original" ∧
    (restore_pioarduino_build_py
        { backup_pioarduino_build_py "arduino" ⟨some "original", none⟩ with
            buildPy := some "patched" }).backupFile = none :=
  backup_restore_roundtrip "arduino" ⟨some "original", none⟩ "original"
    (some "patched") (by decide) rfl rfl

/-- C8: `backup_pioarduino_build_py` is at-most-once per target and
never clobbers: when a backup already exists the call changes nothing
(neither backup nor recipe file), and it copies the recipe to the
backup only in an Arduino environment when the recipe exists and no
backup does. -/
theorem backup_at_most_once :
    (∀ (fw : String) (fs : BuildFs) (b : String), fs.backupFile = some b →
      backup_pioarduino_build_py fw fs = fs) ∧
    (∀ (fw : String) (fs : BuildFs) (c : String), containsSub "arduino" fw = true →
      fs.buildPy = some c → fs.backupFile = none →
      backup_pioarduino_build_py fw fs = { buildPy := some c, backupFile := some c }) := by
  constructor
  · intro fw fs b hb
    cases fs with
    | mk py bk =>
      dsimp only at hb
      subst hb
      rw [backup_pioarduino_build_py]
      split
      · rfl
      · cases py <;> rfl
  · intro fw fs c hfw hpy hbk
    cases fs with
    | mk py bk =>
      dsimp only at hpy hbk
      subst hpy
      subst hbk
      rw [backup_pioarduino_build_py, hfw]
      simp

/-- Witness for the C8 theorem at concrete states. -/
theorem backup_at_most_once_witness :
    backup_pioarduino_build_py "arduino" ⟨some "mutated", some "kept"⟩
        = ⟨some "mutated", some "kept"⟩ ∧
    backup_pioarduino_build_py "arduino" ⟨some "fresh", none⟩
        = ⟨some "fresh", some "fresh"⟩ :=
  ⟨backup_at_most_once.1 "arduino" ⟨some "mutated", some "kept"⟩ "kept" rfl,
   backup_at_most_once.2 "arduino" ⟨some "fresh", none⟩ "fresh" (by decide) rfl rfl⟩

/-- C9 counterexample: the source writes via `open(path, 'w')`, which
truncates the file before writing, so an exception raised during the
write phase is caught and logged but leaves the recipe file modified —
here a failure immediately after `open` leaves the file empty rather
than holding its original content. -/
theorem strip_write_error_not_atomic_cex :
    (remove_ignored_lib_includes_run ⟨false, WriteFault.midFail 0⟩ []
        (fun _ => false) (some "A\n,\n]")).2 = true ∧
    (remove_ignored_lib_includes_run ⟨false, WriteFault.midFail 0⟩ []
        (fun _ => false) (some "A\n,\n]")).1 = some "" ∧
    some "" ≠ some "A\n,\n]" := by
  decide

/-- C9 (amended): every exception raised while reading, patching or
writing is caught and converted into a change-log message — the
operation never raises (the embedding is total). An exception raised
by the read, or by `open` before the file is truncated, leaves the
content unmodified; only a failure during the write phase itself can
leave the file modified, and then the on-disk content is a prefix of
the intended patched content (truncate-then-write). -/
theorem strip_error_handling (faults : IoFaults) (ignored : List String)
    (oracle : String → Bool) (fs : Option String) :
    ((faults.readErr = true ∨ faults.writeFault = WriteFault.openFail) →
      (remove_ignored_lib_includes_run faults ignored oracle fs).1 = fs) ∧
    ((remove_ignored_lib_includes_run faults ignored oracle fs).2 = true →
      (remove_ignored_lib_includes_run faults ignored oracle fs).1 = fs ∨
      ∃ c k, fs = some c ∧ faults.writeFault = WriteFault.midFail k ∧
        (remove_ignored_lib_includes_run faults ignored oracle fs).1 =
          some (String.mk ((ignoredPatchPipeline ignored oracle c).toList.take k))) := by
  cases fs with
  | none =>
    constructor
    · intro _
      rfl
    · intro h
      exact absurd h (by simp [remove_ignored_lib_includes_run])
  | some c =>
    have hrun : remove_ignored_lib_includes_run faults ignored oracle (some c)
        = (some (remove_ignored_try faults ignored oracle c).1,
           (remove_ignored_try faults ignored oracle c).2) := rfl
    rw [hrun, remove_ignored_try]
    by_cases hre : faults.readErr = true
    · rw [if_pos hre]
      exact ⟨fun _ => rfl, fun _ => Or.inl rfl⟩
    · rw [if_neg hre]
      by_cases hcond : (validate_changes c (ignoredPatchPipeline ignored oracle c)
          && ignoredPatchPipeline ignored oracle c != c) = true
      · rw [if_pos hcond]
        cases hwf : faults.writeFault with
        | complete =>
          constructor
          · rintro (h | h)
            · exact absurd h hre
            · cases h
          · intro h
            simp at h
        | openFail =>
          exact ⟨fun _ => rfl, fun _ => Or.inl rfl⟩
        | midFail k =>
          constructor
          · rintro (h | h)
            · exact absurd h hre
            · cases h
          · intro _
            exact Or.inr ⟨c, k, rfl, rfl, rfl⟩
      · rw [if_neg hcond]
        constructor
        · intro _
          rfl
        · intro h
          simp at h

/-- Witness for the amended C9 theorem: an injected read failure and an
injected `open` failure both leave the file unchanged. -/
theorem strip_error_handling_witness :
    (remove_ignored_lib_includes_run ⟨true, WriteFault.complete⟩ []
        (fun _ => false) (some "content")).1 = some "content" ∧
    (remove_ignored_lib_includes_run ⟨false, WriteFault.openFail⟩ []
        (fun _ => false) (some "A\n,\n]")).1 = some "A\n,\n]" :=
  ⟨(strip_error_handling ⟨true, WriteFault.complete⟩ [] (fun _ => false)
      (some "content")).1 (Or.inl rfl),
   (strip_error_handling ⟨false, WriteFault.openFail⟩ [] (fun _ => false)
      (some "A\n,\n]")).1 (Or.inr rfl)⟩

/-- C10: `load_component_yml` substitutes `{"dependencies": {}}`
exactly when the parse raised or produced a falsy document; a truthy
parse result is returned exactly as parsed — in particular a mapping
without a `dependencies` key is returned without one being added. -/
theorem load_component_yml_spec :
    (∀ e : String, load_component_yml (.error e) = defaultComponentData) ∧
    (∀ v : YamlValue, yamlTruthy v = false →
      load_component_yml (.ok v) = defaultComponentData) ∧
    (∀ v : YamlValue, yamlTruthy v = true → load_component_yml (.ok v) = v) ∧
    load_component_yml (.ok (.dictV [("foo", .nullV)])) = .dictV [("foo", .nullV)] ∧
    yamlHasKey "dependencies"
        (load_component_yml (.ok (.dictV [("foo", .nullV)]))) = false := by
  refine ⟨fun e => rfl, ?_, ?_, rfl, rfl⟩
  · intro v hv
    simp [load_component_yml, hv]
  · intro v hv
    simp [load_component_yml, hv]

/-- Witness for the C10 theorem at a concrete truthy document. -/
theorem load_component_yml_spec_witness :
    load_component_yml (.ok (.strV "doc")) = .strV "doc" :=
  load_component_yml_spec.2.2.1 (.strV "doc") rfl

/-- C5: `_get_lib_ignore_entries` on the ignore list
`["esp_timer", "esp_camera"]` (with an empty vendored-library table)
returns only the mapped name of `esp_camera`; in general no entry whose
converted include name is one of the ten protected critical components
ever reaches the patcher — it is dropped by the filter with no error
surfaced. -/
theorem lib_ignore_critical_filtering :
    get_lib_ignore_entries [] ["esp_timer", "esp_camera"] = ["esp_camera"] ∧
    ∀ (cache : List (String × String)) (entries : List String) (e : String),
      e ∈ get_lib_ignore_entries cache entries → e ∉ critical_components := by
  refine ⟨by decide, ?_⟩
  intro cache entries e he
  rw [get_lib_ignore_entries] at he
  have h2 := (List.mem_filter.1 he).2
  simp only [Bool.not_eq_true'] at h2
  intro hcrit
  simp at h2
  exact h2 hcrit

/-- Witness for the C5 theorem: the surviving entry is not critical. -/
theorem lib_ignore_critical_filtering_witness :
    "esp_camera" ∉ critical_components :=
  lib_ignore_critical_filtering.2 [] ["esp_camera"] "esp_camera" (by decide)

/-- Shows that `breakAtChar` splits at the first occurrence of the separator. -/
theorem breakAtChar_append (c : Char) :
    ∀ (as bs : List Char), c ∉ as → breakAtChar c (as ++ c :: bs) = (as, bs) := by
  intro as
  induction as with
  | nil =>
    intro bs _
    simp [breakAtChar]
  | cons a tl ih =>
    intro bs h
    rw [List.cons_append, breakAtChar]
    have hac : (a == c) = false := by
      have hne : a ≠ c := fun hh => h (by rw [hh]; exact List.mem_cons_self c tl)
      simpa using hne
    rw [hac]
    simp only [Bool.false_eq_true, if_false]
    rw [ih bs (fun hm => h (List.mem_cons_of_mem a hm))]

/-- C6: `_parse_component_entry` splits an entry at the first `@` into
a trimmed name and trimmed version (`"esp_camera@1.2.0"` gives
`("esp_camera", "1.2.0")`), defaults the version to `"*"` when there is
no `@` (`"esp_dsp"` gives `("esp_dsp", "*")`); `_add_components` skips
any entry whose stripped length is at most 4 no matter where it occurs,
and never overwrites the version of a name already present. -/
theorem add_component_parsing :
    parse_component_entry "esp_camera@1.2.0" = ("esp_camera", "1.2.0") ∧
    parse_component_entry "esp_dsp" = ("esp_dsp", "*") ∧
    (∀ name ver : String, '@' ∉ name.toList →
      parse_component_entry (name ++ "@" ++ ver) = (pyStrip name, pyStrip ver)) ∧
    (∀ (deps : Dependencies) (pre post : List String) (e : String),
      (pyStrip e).toList.length ≤ 4 →
      add_components deps (pre ++ e :: post) = add_components deps (pre ++ post)) ∧
    (∀ (deps : Dependencies) (entries : List String) (n v : String),
      deps.lookup n = some v → (add_components deps entries).lookup n = some v) := by
  refine ⟨by decide, by decide, ?_, ?_, ?_⟩
  · intro name ver h
    have hl : (name ++ "@" ++ ver).toList = name.toList ++ '@' :: ver.toList := by
      simp [String.toList]
    rw [parse_component_entry, hl]
    have hc : (name.toList ++ '@' :: ver.toList).contains '@' = true := by
      simp
    rw [hc]
    simp only [if_true]
    rw [breakAtChar_append '@' name.toList ver.toList h]
    rfl
  · intro deps pre post e he
    have hstep : ∀ d : Dependencies, add_components_step d e = d := by
      intro d
      rw [add_components_step]
      dsimp only
      rw [if_pos he]
    rw [add_components, add_components, List.foldl_append, List.foldl_append,
      List.foldl_cons, hstep]
  · exact fun deps entries n v h => add_components_preserves_lookup entries deps n v h

/-- Membership in the analyzed used-component set comes from a
recognized source file or from a declared library dependency. -/
theorem mem_analyze_iff (files : List (String × String)) (libDeps : List String)
    (x : String) :
    x ∈ analyze_project_dependencies files libDeps ↔
      (∃ f, f ∈ files ∧ recognizedExt f.1 = true ∧
        x ∈ extract_components_from_file f.2) ∨
      (∃ d, d ∈ libDeps ∧ x ∈ extract_components_from_lib_dep d) := by
  rw [analyze_project_dependencies, List.mem_append, mem_files_fold, mem_deps_fold]
  simp

/-- Shows that `_extract_components_from_file` reports exactly the components of
the static table one of whose patterns occurs in the lower-cased
content. -/
theorem mem_extract_file_iff (content x : String) :
    x ∈ extract_components_from_file content ↔
      ∃ cp, cp ∈ component_patterns ∧ cp.1 = x ∧
        cp.2.any (fun p => containsSub p (pyLower content)) = true := by
  rw [extract_components_from_file, List.mem_filterMap]
  constructor
  · rintro ⟨cp, hcp, hq⟩
    by_cases hcond : cp.2.any (fun p => containsSub p (pyLower content)) = true
    · rw [if_pos hcond] at hq
      exact ⟨cp, hcp, Option.some.inj hq, hcond⟩
    · rw [if_neg hcond] at hq
      exact absurd hq (by simp)
  · rintro ⟨cp, hcp, hx, hcond⟩
    exact ⟨cp, hcp, by rw [if_pos hcond, hx]⟩

/-- Shows that `_extract_components_from_lib_dep` reports exactly the components
of the keyword table one of whose keywords occurs in the upper-cased
dependency string. -/
theorem mem_extract_dep_iff (libDep x : String) :
    x ∈ extract_components_from_lib_dep libDep ↔
      ∃ ck, ck ∈ lib_dep_mapping ∧ ck.1 = x ∧
        ck.2.any (fun k => containsSub k (pyUpper libDep)) = true := by
  rw [extract_components_from_lib_dep, List.mem_filterMap]
  constructor
  · rintro ⟨ck, hck, hq⟩
    by_cases hcond : ck.2.any (fun k => containsSub k (pyUpper libDep)) = true
    · rw [if_pos hcond] at hq
      exact ⟨ck, hck, Option.some.inj hq, hcond⟩
    · rw [if_neg hcond] at hq
      exact absurd hq (by simp)
  · rintro ⟨ck, hck, hx, hcond⟩
    exact ⟨ck, hck, by rw [if_pos hcond, hx]⟩

/-- None of the component names of the two static tables other than
`esp_wifi` itself matches `esp_wifi` as a substring in either
direction. -/
theorem component_keys_partial_esp_wifi :
    ∀ u ∈ component_patterns.map Prod.fst ++ lib_dep_mapping.map Prod.fst,
      u = "esp_wifi" ∨
        (containsSub "esp_wifi" u = false ∧ containsSub u "esp_wifi" = false) := by
  decide

/-- The file-scan patterns configured for `esp_wifi`. -/
theorem esp_wifi_patterns_eq :
    ∀ cp ∈ component_patterns, cp.1 = "esp_wifi" →
      cp.2 = ["wifi", "esp_wifi", "tcpip_adapter"] := by
  decide

/-- The `lib_deps` keywords configured for `esp_wifi`. -/
theorem esp_wifi_dep_keywords_eq :
    ∀ ck ∈ lib_dep_mapping, ck.1 = "esp_wifi" →
      ck.2 = ["WIFI", "ASYNCTCP", "ESPASYNCWEBSERVER"] := by
  decide

/-- C7: `is_component_used_in_project "esp_wifi"` is true whenever some
scanned project file with a recognized extension contains `"wifi"`
case-insensitively, and false when no recognized file and no declared
dependency contains any configured keyword for `esp_wifi`. -/
theorem wifi_usage_detection :
    (∀ (files : List (String × String)) (libDeps : List String)
        (name content : String),
      (name, content) ∈ files → recognizedExt name = true →
      containsSub "wifi" (pyLower content) = true →
      is_component_used_in_project files libDeps "esp_wifi" = true) ∧
    (∀ (files : List (String × String)) (libDeps : List String),
      (∀ nc, nc ∈ files → recognizedExt nc.1 = true →
        ∀ kw, kw ∈ ["wifi", "esp_wifi", "tcpip_adapter"] →
          containsSub kw (pyLower nc.2) = false) →
      (∀ d, d ∈ libDeps →
        ∀ kw, kw ∈ ["WIFI", "ASYNCTCP", "ESPASYNCWEBSERVER"] →
          containsSub kw (pyUpper d) = false) →
      is_component_used_in_project files libDeps "esp_wifi" = false) := by
  have hlow : pyLower "esp_wifi" = "esp_wifi" := by decide
  constructor
  · intro files libDeps name content hmem hext hwifi
    rw [is_component_used_in_project, hlow]
    have hx : "esp_wifi" ∈ analyze_project_dependencies files libDeps := by
      rw [mem_analyze_iff]
      left
      refine ⟨(name, content), hmem, hext, ?_⟩
      rw [mem_extract_file_iff]
      refine ⟨("esp_wifi", ["wifi", "esp_wifi", "tcpip_adapter"]), by decide, rfl, ?_⟩
      simp [hwifi]
    have hc : (analyze_project_dependencies files libDeps).contains "esp_wifi" = true := by
      simpa using hx
    rw [hc, Bool.true_or]
  · intro files libDeps hfiles hdeps
    rw [is_component_used_in_project, hlow]
    have hnot : "esp_wifi" ∉ analyze_project_dependencies files libDeps := by
      intro hx
      rw [mem_analyze_iff] at hx
      rcases hx with ⟨f, hf, hext, hexf⟩ | ⟨d, hd, hexd⟩
      · rw [mem_extract_file_iff] at hexf
        rcases hexf with ⟨cp, hcp, hcp1, hany⟩
        rw [esp_wifi_patterns_eq cp hcp hcp1, List.any_eq_true] at hany
        rcases hany with ⟨kw, hkw, hcs⟩
        rw [hfiles f hf hext kw hkw] at hcs
        exact absurd hcs (by decide)
      · rw [mem_extract_dep_iff] at hexd
        rcases hexd with ⟨ck, hck, hck1, hany⟩
        rw [esp_wifi_dep_keywords_eq ck hck hck1, List.any_eq_true] at hany
        rcases hany with ⟨kw, hkw, hcs⟩
        rw [hdeps d hd kw hkw] at hcs
        exact absurd hcs (by decide)
    have hkeys : ∀ u ∈ analyze_project_dependencies files libDeps,
        u ∈ component_patterns.map Prod.fst ++ lib_dep_mapping.map Prod.fst := by
      intro u hu
      rw [mem_analyze_iff] at hu
      rcases hu with ⟨f, _, _, hexf⟩ | ⟨d, _, hexd⟩
      · rw [mem_extract_file_iff] at hexf
        rcases hexf with ⟨cp, hcp, hcp1, _⟩
        exact List.mem_append.2 (Or.inl (List.mem_map.2 ⟨cp, hcp, hcp1⟩))
      · rw [mem_extract_dep_iff] at hexd
        rcases hexd with ⟨ck, hck, hck1, _⟩
        exact List.mem_append.2 (Or.inr (List.mem_map.2 ⟨ck, hck, hck1⟩))
    have hc : (analyze_project_dependencies files libDeps).contains "esp_wifi" = false := by
      simpa using hnot
    have hany : (analyze_project_dependencies files libDeps).any
        (fun u => containsSub "esp_wifi" u || containsSub u "esp_wifi") = false := by
      rw [List.any_eq_false]
      intro u hu
      rcases component_keys_partial_esp_wifi u (hkeys u hu) with rfl | ⟨h1, h2⟩
      · exact absurd hu hnot
      · simp [h1, h2]
    rw [hc, hany]
    rfl

/-- Witness for the C7 theorem at concrete projects. -/
theorem wifi_usage_detection_witness :
    is_component_used_in_project [("main.cpp", "WiFi.begin();")] [] "esp_wifi" = true ∧
    is_component_used_in_project [("main.cpp", "int x;")] ["PubSubClient"] "esp_wifi" = false :=
  ⟨wifi_usage_detection.1 [("main.cpp", "WiFi.begin();")] [] "main.cpp" "WiFi.begin();"
      (List.mem_singleton.2 rfl) (by decide) (by decide),
   wifi_usage_detection.2 [("main.cpp", "int x;")] ["PubSubClient"] (by decide) (by decide)⟩

/-- Witness for the C6 theorem at concrete inputs. -/
theorem add_component_parsing_witness :
    parse_component_entry ("esp_camera" ++ "@" ++ "1.2.0")
        = (pyStrip "esp_camera", pyStrip "1.2.0") ∧
    add_components [] ([] ++ "  ab  " :: ["esp_dsp"]) = add_components [] ([] ++ ["esp_dsp"]) ∧
    (add_components [("idf", ">=5.1")] ["extra_component"]).lookup "idf" = some ">=5.1" :=
  ⟨add_component_parsing.2.2.1 "esp_camera" "1.2.0" (by decide),
   add_component_parsing.2.2.2.1 [] [] ["esp_dsp"] "  ab  " (by decide),
   add_component_parsing.2.2.2.2 [("idf", ">=5.1")] ["extra_component"] "idf" ">=5.1" rfl⟩
